import Mathlib

/-!
Verification of the credential resolution subsystem of
`src/services/credentialFactory.js` (class `CredentialFactory`).

The JavaScript code is shallowly embedded as pure Lean functions:

* environment variables become an `Env` record (`Option String`, where
  `none` stands for an unset or empty — hence falsy — variable);
* the outcomes of external SDK calls (`getToken`, Key Vault fetches, the
  `ClientCertificateCredential` constructor) are supplied by an `Oracle`
  record, so every run of the embedded code is a deterministic function of
  the configuration and of those outcomes;
* thrown JavaScript errors become an `Err` inductive carried in `Except`;
  the `message` field stored by `catch` blocks is `Err.message`;
* the single-threaded cooperative scheduling of node is modelled by
  recording a snapshot of the mutable `this.credential` field at every
  `await` suspend point of `setupCredentials` (the only places where a
  concurrently scheduled task could observe the field mid-resolution);
* the filesystem used by the temp-file certificate approach is a list of
  file paths; `writeFileSync` appends, and `unlinkSync` either erases or
  throws, as the oracle decides — the code swallows a throwing cleanup
  call (logging a warning) and the file then remains on disk.
-/

/-- JS environment variables read by the factory. `none` = unset or empty
(falsy under the `if (v && ...)` tests of the source). -/
structure Env where
  azureClientId : Option String
  msiEndpoint : Option String
  keyVaultUri : Option String
  certificateName : Option String
  tenantId : Option String
  clientId : Option String
  clientSecret : Option String
  certificatePassword : Option String
  nodeEnvTest : Bool
  deriving DecidableEq, Repr

/-- JS truthiness of an environment variable. -/
def envTruthy (v : Option String) : Bool := v.isSome

/-- The three data forms tried for `ClientCertificateCredential`
(lines 198-244 of the source). -/
inductive CertApproach where
  | base64String
  | buffer
  | tempFile
  deriving DecidableEq, Repr

/-- A constructed credential object. The certificate credential remembers
which sub-approach built it. -/
inductive Cred where
  | managedIdentity
  | clientCertificate (approach : CertApproach)
  | clientSecretCred
  | defaultAzure
  deriving DecidableEq, Repr

/-- One entry of the `credentialAttempts` array: strategy name and the
message of the error it threw. -/
structure Attempt where
  type : String
  error : String
  deriving DecidableEq, Repr

/-- One entry of the `errors` array of `tryCreateCertificateCredential`. -/
structure ApproachError where
  approach : String
  error : String
  deriving DecidableEq, Repr

/-- Errors thrown by the embedded code. `external` wraps an error coming
out of an SDK call (token request, Key Vault, constructor); the other
constructors are the `new Error(...)` sites of the source. -/
inductive Err where
  | external (msg : String)
  | noCredentialToTest
  | noTokenReceived
  | allCertApproachesFailed (errs : List ApproachError)
  | allFailed (attempts : List Attempt)
  | graphCredentialNotInitialized
  | initTimeout
  | credentialsNotAvailable (msg : String)
  | noCredentialAfterInit
  | secretClientNotInitialized
  | certificateClientNotInitialized
  | graphClientNotInitialized
  | credentialNotInitialized
  | jsTypeError (prop : String)
  deriving DecidableEq, Repr

/-- Model of `JSON.stringify` for one attempt record. -/
def renderAttempt (a : Attempt) : String :=
  "\x7b\"type\":\"" ++ a.type ++ "\",\"error\":\"" ++ a.error ++ "\"\x7d"

/-- Model of `JSON.stringify` for the attempts array. -/
def renderAttempts (l : List Attempt) : String :=
  "[" ++ String.intercalate "," (l.map renderAttempt) ++ "]"

/-- Model of `JSON.stringify` for one sub-approach error record. -/
def renderApproachError (a : ApproachError) : String :=
  "\x7b\"approach\":\"" ++ a.approach ++ "\",\"error\":\"" ++ a.error ++ "\"\x7d"

/-- Model of `JSON.stringify` for the sub-approach errors array. -/
def renderApproachErrors (l : List ApproachError) : String :=
  "[" ++ String.intercalate "," (l.map renderApproachError) ++ "]"

/-- The `message` property of a thrown error, as stored by the catch
blocks of the source. -/
def Err.message : Err → String
  | .external msg => msg
  | .noCredentialToTest => "No credential available to test"
  | .noTokenReceived => "No token received from credential"
  | .allCertApproachesFailed errs =>
      "All certificate credential approaches failed: " ++ renderApproachErrors errs
  | .allFailed attempts =>
      "All authentication methods failed. Attempts: " ++ renderAttempts attempts
  | .graphCredentialNotInitialized => "Credential not initialized"
  | .initTimeout => "Credential initialization timeout"
  | .credentialsNotAvailable msg => "Credentials not available: " ++ msg
  | .noCredentialAfterInit => "No credential available after initialization"
  | .secretClientNotInitialized =>
      "Secret client not initialized. Ensure AZURE_KEY_VAULT_URI is configured."
  | .certificateClientNotInitialized =>
      "Certificate client not initialized. Ensure AZURE_KEY_VAULT_URI is configured."
  | .graphClientNotInitialized => "Microsoft Graph client not initialized"
  | .credentialNotInitialized => "Credential not initialized"
  | .jsTypeError prop =>
      "Cannot read properties of undefined (reading " ++ prop ++ ")"

/-- `certificateInfo` returned by `getCertificateFromKeyVault`
(lines 175-179 of the source). -/
structure CertificateInfo where
  certificate : String
  password : String
  format : String
  deriving DecidableEq, Repr

/-- The third argument actually handed to `new ClientCertificateCredential`
by each sub-approach. The `buffer` form records the base64 source it was
decoded from. -/
inductive CertData where
  | base64String (s : String)
  | buffer (decodedFromBase64 : String)
  | filePath (p : String)
  deriving DecidableEq, Repr

/-- Outcomes of every external call the factory makes. With an `Oracle`
fixed, each embedded method is a pure function. SDK errors are plain
message strings, wrapped in `Err.external` where the code rethrows them. -/
structure Oracle where
  /-- `credential.getToken(scope)`: `.error m` = rejection with message m,
  `.ok none` = resolved but no `.token` field, `.ok (some t)` = token t. -/
  getToken : Cred → String → Except String (Option String)
  /-- Net result of the Key Vault certificate/secret fetches inside
  `getCertificateFromKeyVault`: the base64 secret value, or an error. -/
  fetchCertificateSecret : Except String String
  /-- `new ClientCertificateCredential(tenantId, clientId, data)`:
  `.ok` = constructor returns, `.error m` = constructor throws. -/
  clientCertificateCtor : String → String → CertData → Except String Unit
  /-- The unique temp path built from `Date.now()` and `Math.random()`. -/
  tempName : String
  /-- Whether `fs.unlinkSync(path)` succeeds (`true`) or throws (`false`);
  both cleanup sites of the source (lines 247-255 and 263-272) swallow a
  throwing unlink, so the file then stays on disk. -/
  unlinkOk : String → Bool
  /-- `secretClient.getSecret(name).value`. -/
  vaultGetSecret : String → Except String String
  /-- `secretClient.setSecret(name, value)`. -/
  vaultSetSecret : String → String → Except String Unit
  /-- `certificateClient.getCertificate(name)` (an opaque handle). -/
  vaultGetCertificate : String → Except String String

/-- The fixed scope of the liveness test (line 330 of the source). -/
def defaultScope : String := "https://graph.microsoft.com/.default"

/-- `testCredential` (lines 323-343): request a token for the fixed
default scope from the current credential; throw if there is no
credential, the request rejects, or the response carries no token. -/
def testCredential (o : Oracle) (credential : Option Cred) : Except Err Bool :=
  match credential with
  | none => .error .noCredentialToTest
  | some c =>
    match o.getToken c defaultScope with
    | .error m => .error (.external m)
    | .ok none => .error .noTokenReceived
    | .ok (some _) => .ok true

/-- `getCertificateFromKeyVault` (lines 145-189): fetch the certificate
secret value and package it with the optional password. -/
def getCertificateFromKeyVault (o : Oracle) (env : Env) : Except Err CertificateInfo :=
  match o.fetchCertificateSecret with
  | .error m => .error (.external m)
  | .ok certificateData =>
      .ok { certificate := certificateData
            password := env.certificatePassword.getD ""
            format := "pkcs12" }

/-- `tryCreateCertificateCredential` (lines 191-277). Returns the
constructed credential (or the aggregate error), the final filesystem, and
the list of paths passed to `fs.unlinkSync`, in call order. Approach 3
writes the temp file (`writeFileSync` appends it; a throwing write would
leave no file on disk, so modelling it as succeeding only adds the
executions in which a file exists and cleanup matters) and then invokes
`unlinkSync` on both exit paths: inside its own try/catch after a
successful constructor call (lines 247-255), and guarded by `existsSync`
inside another try/catch after a throwing one (lines 263-272). In both
places a throwing `unlinkSync` (`o.unlinkOk` false) is swallowed — only a
warning is logged — and the temp file remains on disk. -/
def tryCreateCertificateCredential (o : Oracle) (tenantId clientId : String)
    (certificateInfo : CertificateInfo) (fs : List String) :
    Except Err Cred × List String × List String :=
  match o.clientCertificateCtor tenantId clientId (.base64String certificateInfo.certificate) with
  | .ok _ => (.ok (.clientCertificate .base64String), fs, [])
  | .error e1 =>
    match o.clientCertificateCtor tenantId clientId (.buffer certificateInfo.certificate) with
    | .ok _ => (.ok (.clientCertificate .buffer), fs, [])
    | .error e2 =>
      let tempFilePath := o.tempName
      let fs1 := fs ++ [tempFilePath]
      match o.clientCertificateCtor tenantId clientId (.filePath tempFilePath) with
      | .ok _ =>
        let fs2 := if o.unlinkOk tempFilePath then fs1.erase tempFilePath else fs1
        (.ok (.clientCertificate .tempFile), fs2, [tempFilePath])
      | .error e3 =>
        let fs2 :=
          if tempFilePath ∈ fs1 then
            if o.unlinkOk tempFilePath then fs1.erase tempFilePath else fs1
          else fs1
        let calls := if tempFilePath ∈ fs1 then [tempFilePath] else []
        (.error (.allCertApproachesFailed
          [⟨"base64String", e1⟩, ⟨"buffer", e2⟩, ⟨"tempFile", e3⟩]), fs2, calls)

/-- Result of one run of `setupCredentials` (lines 64-143). `trace` is the
value of `this.credential` at each `await` suspend point, in order — the
only points where other tasks of the single-threaded event loop can run
and observe the field. -/
structure SetupResult where
  trace : List (Option Cred)
  result : Except Err Cred
  attempts : List Attempt
  finalCredential : Option Cred
  deriving Repr

/-- Attempt 4 of `setupCredentials` (lines 127-137): DefaultAzureCredential,
always attempted; on failure the aggregate error is thrown and
`this.credential` is left holding the untested candidate. -/
def setupAttempt4 (o : Oracle) (attempts : List Attempt) (trace : List (Option Cred)) :
    SetupResult :=
  let candidate : Option Cred := some .defaultAzure
  let trace1 := trace ++ [candidate]
  match testCredential o candidate with
  | .ok _ => ⟨trace1, .ok .defaultAzure, attempts, candidate⟩
  | .error e =>
    let attempts1 := attempts ++ [⟨"DefaultAzureCredential", e.message⟩]
    ⟨trace1, .error (.allFailed attempts1), attempts1, candidate⟩

/-- Attempt 3 of `setupCredentials` (lines 112-125): client secret, only if
tenant id, client id and secret are all truthy. The candidate is assigned
synchronously and the single suspend point is the liveness test. -/
def setupAttempt3 (env : Env) (o : Oracle) (attempts : List Attempt)
    (trace : List (Option Cred)) : SetupResult :=
  if envTruthy env.tenantId && envTruthy env.clientId && envTruthy env.clientSecret then
    let candidate : Option Cred := some .clientSecretCred
    let trace1 := trace ++ [candidate]
    match testCredential o candidate with
    | .ok _ => ⟨trace1, .ok .clientSecretCred, attempts, candidate⟩
    | .error e => setupAttempt4 o (attempts ++ [⟨"ClientSecret", e.message⟩]) trace1
  else setupAttempt4 o attempts trace

/-- Attempt 2 of `setupCredentials` (lines 94-110): certificate strategy,
only if vault URI, certificate name, tenant id and client id are all
truthy. `current` is the value `this.credential` holds on entry (observed
during the Key Vault fetch awaits). `await getCertificateFromKeyVault`
suspends at its two inner SDK awaits; `await tryCreateCertificateCredential`
suspends once after its (await-free) body has run; then the liveness test
suspends once more. -/
def setupAttempt2 (env : Env) (o : Oracle) (current : Option Cred)
    (attempts : List Attempt) (trace : List (Option Cred)) : SetupResult :=
  if envTruthy env.keyVaultUri && envTruthy env.certificateName &&
      envTruthy env.tenantId && envTruthy env.clientId then
    let trace1 := trace ++ [current, current]
    match getCertificateFromKeyVault o env with
    | .error e =>
        setupAttempt3 env o (attempts ++ [⟨"ClientCertificate", e.message⟩]) trace1
    | .ok certificateInfo =>
      match (tryCreateCertificateCredential o (env.tenantId.getD "") (env.clientId.getD "")
              certificateInfo []).1 with
      | .error e =>
          setupAttempt3 env o (attempts ++ [⟨"ClientCertificate", e.message⟩])
            (trace1 ++ [current])
      | .ok c =>
        let trace2 := trace1 ++ [some c, some c]
        match testCredential o (some c) with
        | .ok _ => ⟨trace2, .ok c, attempts, some c⟩
        | .error e => setupAttempt3 env o (attempts ++ [⟨"ClientCertificate", e.message⟩]) trace2
  else setupAttempt3 env o attempts trace

/-- `setupCredentials` (lines 64-143). `initial` is the value of
`this.credential` when the call starts (null on first initialization, the
committed credential during a refresh). Attempt 1 (managed identity) runs
only if `AZURE_CLIENT_ID` or `MSI_ENDPOINT` is truthy; its candidate is
assigned synchronously and observed at the liveness-test suspend point.
After a failed attempt the field is nulled, and the null is observable
exactly when the next suspend point arrives before a new synchronous
assignment (the certificate fetch awaits). -/
def setupCredentialsRun (env : Env) (o : Oracle) (initial : Option Cred) : SetupResult :=
  if envTruthy env.azureClientId || envTruthy env.msiEndpoint then
    let candidate : Option Cred := some .managedIdentity
    let trace1 : List (Option Cred) := [candidate]
    match testCredential o candidate with
    | .ok _ => ⟨trace1, .ok .managedIdentity, [], candidate⟩
    | .error e => setupAttempt2 env o none [⟨"ManagedIdentity", e.message⟩] trace1
  else setupAttempt2 env o initial [] []

/-- The credential-state fields of the factory object (lines 18-23).
`secretClient`, `certificateClient` and `graphClient` record whether the
corresponding sub-client object has been constructed. -/
structure FactoryState where
  credential : Option Cred
  secretClient : Bool
  certificateClient : Bool
  graphClient : Bool
  initializationError : Option Err
  isInitialized : Bool
  deriving DecidableEq, Repr

/-- Field values assigned at the start of a non-test construction
(lines 18-23). -/
def initialState : FactoryState :=
  { credential := none
    secretClient := false
    certificateClient := false
    graphClient := false
    initializationError := none
    isInitialized := false }

/-- `setupKeyVaultClients` (lines 280-297): build the secret and
certificate clients only when the vault URI is truthy and a credential is
present; otherwise skip silently. -/
def setupKeyVaultClients (env : Env) (st : FactoryState) : FactoryState :=
  if envTruthy env.keyVaultUri && st.credential.isSome then
    { st with secretClient := true, certificateClient := true }
  else st

/-- `setupGraphClient` (lines 299-321): throws if there is no credential,
otherwise builds the graph client. -/
def setupGraphClient (st : FactoryState) : Except Err FactoryState :=
  if st.credential.isSome then .ok { st with graphClient := true }
  else .error .graphCredentialNotInitialized

/-- `initialize` (lines 42-62): run the setup chain; on any throw store the
error in `initializationError` and return false instead of rethrowing.
On the failure path `setupCredentials` leaves `this.credential` at
whatever value its last assignment gave it. -/
def initializeRun (env : Env) (o : Oracle) (st : FactoryState) : FactoryState × Bool :=
  let setup := setupCredentialsRun env o st.credential
  match setup.result with
  | .ok c =>
    let st1 := { st with credential := some c }
    let st2 := setupKeyVaultClients env st1
    match setupGraphClient st2 with
    | .ok st3 => (st3, true)
    | .error e =>
        ({ st2 with initializationError := some e }, false)
  | .error e =>
      ({ st with credential := setup.finalCredential, initializationError := some e }, false)

/-- `initializeAsync` (lines 29-40): `isInitialized` becomes the boolean
returned by `initialize`; `initialize` itself never rethrows, so the outer
catch never fires. The settled state is a total function of the inputs —
no exception escapes this path. -/
def initializeAsyncRun (env : Env) (o : Oracle) (st : FactoryState) : FactoryState :=
  let (st1, ok) := initializeRun env o st
  { st1 with isInitialized := ok }

/-- The factory object. `fieldsInitialized = false` models the test-mode
constructor that returned before assigning any credential-state field
(every later read of such a field yields `undefined`); in that case `st`
is a placeholder and must not be consulted. -/
structure Factory where
  fieldsInitialized : Bool
  st : FactoryState
  deriving DecidableEq, Repr

/-- The constructor (lines 9-27): in test mode return before initializing
any credential-state field and never start resolution; otherwise assign
the initial fields and kick off `initializeAsync` without awaiting it. -/
def constructorRun (env : Env) : Factory :=
  if env.nodeEnvTest then { fieldsInitialized := false, st := initialState }
  else { fieldsInitialized := true, st := initialState }

/-- The state once the `initializeAsync` task started by a non-test
constructor has settled. -/
def constructorSettledState (env : Env) (o : Oracle) : FactoryState :=
  initializeAsyncRun env o initialState

/-- `waitForInitialization` (lines 519-535). The while loop polls
`this.isInitialized` / `this.initializationError` every 100 ms until one
is set or the deadline passes. `polls i` is the state observed at the
i-th poll (the state may be changed between polls by the concurrently
running initialization task); `fuel` is the number of sleeps the 30 s
deadline still allows. Returns the state the loop exited on. -/
def waitLoop (polls : Nat → FactoryState) : Nat → Nat → FactoryState
  | 0, i => polls i
  | fuel + 1, i =>
    let s := polls i
    if s.isInitialized || s.initializationError.isSome then s
    else waitLoop polls fuel (i + 1)

/-- `waitForInitialization` (lines 519-535): after the loop, throw the
stored error if there is one, throw the distinct timeout error if still
not initialized, else return true. -/
def waitForInitialization (polls : Nat → FactoryState) (fuel : Nat) : Except Err Bool :=
  let s := waitLoop polls fuel 0
  match s.initializationError with
  | some e => .error e
  | none => if s.isInitialized then .ok s.isInitialized else .error .initTimeout

/-- `ensureCredentialAvailable` (lines 537-555): in test mode return at
once without any check; otherwise wait while still pending, then rethrow
the stored error wrapped in a `Credentials not available` message, then
require a non-null credential. In this sequential model no other task
mutates the state during the wait, so the poll sequence is constant. -/
def ensureCredentialAvailable (testMode : Bool) (st : FactoryState) (fuel : Nat) :
    Except Err Unit :=
  if testMode then .ok ()
  else
    let waited : Except Err Bool :=
      if !st.isInitialized && st.initializationError.isNone then
        waitForInitialization (fun _ => st) fuel
      else .ok true
    match waited with
    | .error e => .error e
    | .ok _ =>
      match st.initializationError with
      | some e => .error (.credentialsNotAvailable e.message)
      | none => if st.credential.isNone then .error .noCredentialAfterInit else .ok ()

/-- `getSecret` (lines 345-365): gate first, then require the secret
client, then fetch. -/
def getSecretRun (o : Oracle) (testMode : Bool) (st : FactoryState) (fuel : Nat)
    (secretName : String) : Except Err String :=
  match ensureCredentialAvailable testMode st fuel with
  | .error e => .error e
  | .ok _ =>
    if !st.secretClient then .error .secretClientNotInitialized
    else
      match o.vaultGetSecret secretName with
      | .error m => .error (.external m)
      | .ok v => .ok v

/-- `setSecret` (lines 367-384): requires the secret client and writes.
The source contains no `ensureCredentialAvailable` call here. -/
def setSecretRun (o : Oracle) (st : FactoryState) (secretName secretValue : String) :
    Except Err Unit :=
  if !st.secretClient then .error .secretClientNotInitialized
  else
    match o.vaultSetSecret secretName secretValue with
    | .error m => .error (.external m)
    | .ok _ => .ok ()

/-- `getCertificate` (lines 386-404): requires the certificate client and
fetches. The source contains no `ensureCredentialAvailable` call here. -/
def getCertificateRun (o : Oracle) (st : FactoryState) (certificateName : String) :
    Except Err String :=
  if !st.certificateClient then .error .certificateClientNotInitialized
  else
    match o.vaultGetCertificate certificateName with
    | .error m => .error (.external m)
    | .ok v => .ok v

/-- `getGraphClient` (lines 406-411): synchronous; requires the graph
client, no gate. The returned handle is modelled as `Unit`. -/
def getGraphClientRun (st : FactoryState) : Except Err Unit :=
  if !st.graphClient then .error .graphClientNotInitialized else .ok ()

/-- `scopes.join(' ')` of line 424. -/
def joinScopes (scopes : List String) : String := String.intercalate " " scopes

/-- `getAccessToken` (lines 420-444): gate first, then call
`this.credential.getToken`. When the constructor ran in test mode the
fields were never assigned, so the read of `this.credential` yields
`undefined` and the call site throws a TypeError. -/
def getAccessTokenRun (o : Oracle) (testMode : Bool) (f : Factory) (fuel : Nat)
    (scopes : List String) : Except Err String :=
  match ensureCredentialAvailable testMode f.st fuel with
  | .error e => .error e
  | .ok _ =>
    if !f.fieldsInitialized then .error (.jsTypeError "getToken")
    else
      match f.st.credential with
      | none => .error (.jsTypeError "getToken")
      | some c =>
        match o.getToken c (joinScopes scopes) with
        | .error m => .error (.external m)
        | .ok none => .error .noTokenReceived
        | .ok (some t) => .ok t

/-- `refreshCredentials` (lines 446-458): re-run the three setup steps; a
throw propagates to the caller. Neither `initializationError` nor
`isInitialized` is touched. -/
def refreshCredentialsRun (env : Env) (o : Oracle) (st : FactoryState) :
    FactoryState × Except Err Unit :=
  let setup := setupCredentialsRun env o st.credential
  match setup.result with
  | .ok c =>
    let st1 := { st with credential := some c }
    let st2 := setupKeyVaultClients env st1
    match setupGraphClient st2 with
    | .ok st3 => (st3, .ok ())
    | .error e => (st2, .error e)
  | .error e => ({ st with credential := setup.finalCredential }, .error e)

/-- The record returned by `getHealthStatus` (lines 460-468). -/
structure HealthStatus where
  credential : String
  secretClient : String
  certificateClient : String
  graphClient : String
  keyVaultUri : String
  deriving DecidableEq, Repr

/-- `getHealthStatus` (lines 460-468): a total, synchronous function of
the instantaneous field values and the environment; no gate, no wait. -/
def getHealthStatus (env : Env) (st : FactoryState) : HealthStatus :=
  { credential := if st.credential.isSome then "initialized" else "not initialized"
    secretClient := if st.secretClient then "initialized" else "not initialized"
    certificateClient := if st.certificateClient then "initialized" else "not initialized"
    graphClient := if st.graphClient then "initialized" else "not initialized"
    keyVaultUri := if envTruthy env.keyVaultUri then "configured" else "not configured" }

/-- The four strategies of the priority chain (comment lines 72-76). -/
inductive Strategy where
  | managedIdentity
  | clientCertificate
  | clientSecretStrat
  | defaultAzure
  deriving DecidableEq, Repr

/-- The fixed priority order of the chain. -/
def strategyOrder : List Strategy :=
  [.managedIdentity, .clientCertificate, .clientSecretStrat, .defaultAzure]

/-- The `type` string recorded for a failed attempt of each strategy. -/
def strategyName : Strategy → String
  | .managedIdentity => "ManagedIdentity"
  | .clientCertificate => "ClientCertificate"
  | .clientSecretStrat => "ClientSecret"
  | .defaultAzure => "DefaultAzureCredential"

/-- The prerequisite-configuration guard of each strategy (lines 81, 95,
113; strategy 4 is unguarded). -/
def prereqPresent (env : Env) : Strategy → Bool
  | .managedIdentity => envTruthy env.azureClientId || envTruthy env.msiEndpoint
  | .clientCertificate =>
      envTruthy env.keyVaultUri && envTruthy env.certificateName &&
        envTruthy env.tenantId && envTruthy env.clientId
  | .clientSecretStrat =>
      envTruthy env.tenantId && envTruthy env.clientId && envTruthy env.clientSecret
  | .defaultAzure => true

/-- The strategies whose prerequisite configuration is present, in
priority order: exactly the ones the chain attempts. -/
def attemptedStrategies (env : Env) : List Strategy :=
  strategyOrder.filter (prereqPresent env)

/-- The net outcome of attempting one strategy: construct the credential
(for strategy 2, fetch certificate material and run the sub-procedure),
then run the liveness test. `.ok` is the committed credential, `.error`
is the error whose message the attempt log records. -/
def strategyOutcome (env : Env) (o : Oracle) : Strategy → Except Err Cred
  | .managedIdentity =>
    match testCredential o (some .managedIdentity) with
    | .ok _ => .ok .managedIdentity
    | .error e => .error e
  | .clientCertificate =>
    match getCertificateFromKeyVault o env with
    | .error e => .error e
    | .ok certificateInfo =>
      match (tryCreateCertificateCredential o (env.tenantId.getD "") (env.clientId.getD "")
              certificateInfo []).1 with
      | .error e => .error e
      | .ok c =>
        match testCredential o (some c) with
        | .ok _ => .ok c
        | .error e => .error e
  | .clientSecretStrat =>
    match testCredential o (some .clientSecretCred) with
    | .ok _ => .ok .clientSecretCred
    | .error e => .error e
  | .defaultAzure =>
    match testCredential o (some .defaultAzure) with
    | .ok _ => .ok .defaultAzure
    | .error e => .error e

/-- Whether an except value is a success. -/
def exceptOk {ε α : Type} : Except ε α → Bool
  | .ok _ => true
  | .error _ => false

/-- Whether an attempted strategy would commit (construction and liveness
test both succeed). -/
def strategySucceeds (env : Env) (o : Oracle) (s : Strategy) : Bool :=
  exceptOk (strategyOutcome env o s)

/-- The message of a failed outcome (unused placeholder on success). -/
def outcomeMessage : Except Err Cred → String
  | .ok _ => ""
  | .error e => e.message

/-- The attempt-log entry a failing strategy appends. -/
def attemptEntry (env : Env) (o : Oracle) (s : Strategy) : Attempt :=
  ⟨strategyName s, outcomeMessage (strategyOutcome env o s)⟩

/-- Reference recursion over a suffix of the attempted-strategy list: try
each in turn, pushing an attempt entry on failure; once the list is
exhausted throw the aggregate error over all recorded attempts. The main
bridge theorem below shows `setupCredentialsRun` computes exactly this on
`attemptedStrategies env`. -/
def chainSpec (env : Env) (o : Oracle) :
    List Strategy → List Attempt → Except Err Cred × List Attempt
  | [], attempts => (.error (.allFailed attempts), attempts)
  | s :: rest, attempts =>
    match strategyOutcome env o s with
    | .ok c => (.ok c, attempts)
    | .error e => chainSpec env o rest (attempts ++ [⟨strategyName s, e.message⟩])

theorem setupAttempt4_eq_chain (env : Env) (o : Oracle) (attempts : List Attempt)
    (trace : List (Option Cred)) :
    ((setupAttempt4 o attempts trace).result, (setupAttempt4 o attempts trace).attempts)
      = chainSpec env o [.defaultAzure] attempts := by
  cases h : testCredential o (some .defaultAzure) with
  | ok v => simp [setupAttempt4, chainSpec, strategyOutcome, strategyName, h]
  | error e => simp [setupAttempt4, chainSpec, strategyOutcome, strategyName, h]

theorem setupAttempt3_eq_chain (env : Env) (o : Oracle) (attempts : List Attempt)
    (trace : List (Option Cred)) :
    ((setupAttempt3 env o attempts trace).result, (setupAttempt3 env o attempts trace).attempts)
      = chainSpec env o
          (List.filter (prereqPresent env) [.clientSecretStrat, .defaultAzure]) attempts := by
  by_cases h3 : (envTruthy env.tenantId && envTruthy env.clientId
      && envTruthy env.clientSecret) = true
  · cases h : testCredential o (some .clientSecretCred) with
    | ok v =>
      simp [setupAttempt3, chainSpec, strategyOutcome, strategyName, prereqPresent, h3, h]
    | error e =>
      simp only [setupAttempt3, h3, if_true]
      rw [h]
      rw [setupAttempt4_eq_chain env o]
      simp [chainSpec, strategyOutcome, strategyName, prereqPresent, h3, h]
  · simp only [setupAttempt3, h3]
    rw [if_neg (by simp [h3])]
    rw [setupAttempt4_eq_chain env o]
    simp [List.filter, prereqPresent, h3]

theorem setupAttempt2_eq_chain (env : Env) (o : Oracle) (current : Option Cred)
    (attempts : List Attempt) (trace : List (Option Cred)) :
    ((setupAttempt2 env o current attempts trace).result,
        (setupAttempt2 env o current attempts trace).attempts)
      = chainSpec env o
          (List.filter (prereqPresent env)
            [.clientCertificate, .clientSecretStrat, .defaultAzure]) attempts := by
  by_cases h2 : (envTruthy env.keyVaultUri && envTruthy env.certificateName &&
      envTruthy env.tenantId && envTruthy env.clientId) = true
  · simp only [setupAttempt2, h2, if_true]
    cases hf : getCertificateFromKeyVault o env with
    | error e =>
      rw [setupAttempt3_eq_chain env o]
      simp [chainSpec, strategyOutcome, strategyName, prereqPresent, h2, hf]
    | ok certificateInfo =>
      cases hc : (tryCreateCertificateCredential o (env.tenantId.getD "") (env.clientId.getD "")
          certificateInfo []).1 with
      | error e =>
        simp only [hc]
        rw [setupAttempt3_eq_chain env o]
        simp [chainSpec, strategyOutcome, strategyName, prereqPresent, h2, hf, hc]
      | ok c =>
        cases ht : testCredential o (some c) with
        | ok v =>
          simp [chainSpec, strategyOutcome, strategyName, prereqPresent, h2, hf, hc, ht]
        | error e =>
          simp only [hc, ht]
          rw [setupAttempt3_eq_chain env o]
          simp [chainSpec, strategyOutcome, strategyName, prereqPresent, h2, hf, hc, ht]
  · simp only [setupAttempt2, h2]
    rw [if_neg (by simp [h2])]
    rw [setupAttempt3_eq_chain env o]
    simp [List.filter, prereqPresent, h2]

theorem setup_eq_chain (env : Env) (o : Oracle) (initial : Option Cred) :
    ((setupCredentialsRun env o initial).result, (setupCredentialsRun env o initial).attempts)
      = chainSpec env o (attemptedStrategies env) [] := by
  by_cases h1 : (envTruthy env.azureClientId || envTruthy env.msiEndpoint) = true
  · simp only [setupCredentialsRun, h1, if_true]
    cases h : testCredential o (some .managedIdentity) with
    | ok v =>
      simp [attemptedStrategies, strategyOrder, chainSpec, strategyOutcome, strategyName,
        prereqPresent, h1, h]
    | error e =>
      rw [setupAttempt2_eq_chain env o]
      simp [attemptedStrategies, strategyOrder, chainSpec, strategyOutcome, strategyName,
        prereqPresent, h1, h]
  · simp only [setupCredentialsRun, h1]
    rw [if_neg (by simp [h1])]
    rw [setupAttempt2_eq_chain env o]
    simp [attemptedStrategies, strategyOrder, List.filter, prereqPresent, h1]

theorem chainSpec_all_fail (env : Env) (o : Oracle) (l : List Strategy)
    (attempts : List Attempt) (h : ∀ s ∈ l, strategySucceeds env o s = false) :
    chainSpec env o l attempts =
      (.error (.allFailed (attempts ++ l.map (attemptEntry env o))),
        attempts ++ l.map (attemptEntry env o)) := by
  induction l generalizing attempts with
  | nil => simp [chainSpec]
  | cons s rest ih =>
    have hs := h s (by simp)
    cases ho : strategyOutcome env o s with
    | ok c => simp [strategySucceeds, exceptOk, ho] at hs
    | error e =>
      have hrest : ∀ t ∈ rest, strategySucceeds env o t = false := by
        intro t ht
        exact h t (by simp [ht])
      simp only [chainSpec, ho]
      rw [ih _ hrest]
      simp [attemptEntry, outcomeMessage, ho]

theorem chainSpec_first_success (env : Env) (o : Oracle) (l : List Strategy)
    (attempts : List Attempt) (s : Strategy)
    (h : l.find? (strategySucceeds env o) = some s) :
    ∃ c, strategyOutcome env o s = .ok c ∧
      chainSpec env o l attempts =
        (.ok c, attempts ++
          (l.takeWhile (fun t => !(strategySucceeds env o t))).map (attemptEntry env o)) := by
  induction l generalizing attempts with
  | nil => simp at h
  | cons a rest ih =>
    by_cases hs : strategySucceeds env o a = true
    · have hsa : s = a := by
        rw [List.find?_cons_of_pos _ hs] at h
        exact (Option.some_inj.mp h).symm
      subst hsa
      cases ho : strategyOutcome env o s with
      | error e => simp [strategySucceeds, exceptOk, ho] at hs
      | ok c =>
        refine ⟨c, rfl, ?_⟩
        simp [chainSpec, ho, List.takeWhile, hs]
    · have hs' : strategySucceeds env o a = false := by
        cases hb : strategySucceeds env o a with
        | true => exact absurd hb hs
        | false => rfl
      rw [List.find?_cons_of_neg _ (by simp [hs'])] at h
      cases ho : strategyOutcome env o a with
      | ok c => simp [strategySucceeds, exceptOk, ho] at hs'
      | error e =>
        obtain ⟨c, hc, hchain⟩ := ih (attempts ++ [⟨strategyName a, e.message⟩]) h
        refine ⟨c, hc, ?_⟩
        simp only [chainSpec, ho]
        rw [hchain]
        simp [List.takeWhile, hs', attemptEntry, outcomeMessage, ho]

/-- A concrete configuration: managed-identity hint and client-secret
configuration present, no Key Vault (certificate strategy skipped). -/
def envW : Env :=
  { azureClientId := some "mi-client"
    msiEndpoint := none
    keyVaultUri := none
    certificateName := none
    tenantId := some "tenant-1"
    clientId := some "app-1"
    clientSecret := some "secret-1"
    certificatePassword := none
    nodeEnvTest := false }

/-- A concrete oracle: only the client-secret credential passes the
liveness test. -/
def oracleW : Oracle :=
  { getToken := fun c _ =>
      match c with
      | .clientSecretCred => .ok (some "token-cs")
      | _ => .error "token request failed"
    fetchCertificateSecret := .error "vault unreachable"
    clientCertificateCtor := fun _ _ _ => .error "bad certificate data"
    tempName := "tmp-cert-file.pfx"
    unlinkOk := fun _ => true
    vaultGetSecret := fun _ => .error "vault unreachable"
    vaultSetSecret := fun _ _ => .error "vault unreachable"
    vaultGetCertificate := fun _ => .error "vault unreachable" }

/-- A concrete oracle under which every external call fails. -/
def oracleAllFail : Oracle :=
  { getToken := fun _ _ => .error "endpoint unreachable"
    fetchCertificateSecret := .error "vault unreachable"
    clientCertificateCtor := fun _ _ _ => .error "bad certificate data"
    tempName := "tmp-cert-file.pfx"
    unlinkOk := fun _ => true
    vaultGetSecret := fun _ => .error "vault unreachable"
    vaultSetSecret := fun _ _ => .error "vault unreachable"
    vaultGetCertificate := fun _ => .error "vault unreachable" }

/-- C1: for every configuration and every outcome of the external calls,
`setupCredentials` works through the fixed order managed-identity,
certificate, client-secret, default-ambient (`strategyOrder`): strategies
whose prerequisite configuration is absent are skipped and appear nowhere
in the attempt log; each attempted strategy constructs its credential and
liveness-tests it by requesting a token for the fixed default scope
(`strategyOutcome` via `testCredential` at `defaultScope`); the first
attempted strategy whose construction and liveness test both succeed is
committed as the resulting credential, and the attempt log holds exactly
the earlier attempted-and-failed strategies — no strategy after the
committed one is attempted or recorded. -/
theorem setup_commits_first_success (env : Env) (o : Oracle) (initial : Option Cred)
    (s : Strategy)
    (h : (attemptedStrategies env).find? (strategySucceeds env o) = some s) :
    ∃ c, strategyOutcome env o s = .ok c ∧
      (setupCredentialsRun env o initial).result = .ok c ∧
      (setupCredentialsRun env o initial).attempts =
        ((attemptedStrategies env).takeWhile (fun t => !(strategySucceeds env o t))).map
          (attemptEntry env o) := by
  obtain ⟨c, hc, hchain⟩ := chainSpec_first_success env o (attemptedStrategies env) [] s h
  have hb := setup_eq_chain env o initial
  rw [hchain] at hb
  have h1 := congrArg Prod.fst hb
  have h2 := congrArg Prod.snd hb
  simp only at h1 h2
  simp at h2
  exact ⟨c, hc, h1, h2⟩

/-- Witness for C1: under `envW`/`oracleW` the managed-identity strategy is
attempted and fails, the certificate strategy is skipped, and the
client-secret strategy is the first success and is committed. -/
theorem setup_commits_first_success_witness :
    ∃ c, strategyOutcome envW oracleW .clientSecretStrat = .ok c ∧
      (setupCredentialsRun envW oracleW none).result = .ok c ∧
      (setupCredentialsRun envW oracleW none).attempts =
        ((attemptedStrategies envW).takeWhile
          (fun t => !(strategySucceeds envW oracleW t))).map (attemptEntry envW oracleW) :=
  setup_commits_first_success envW oracleW none .clientSecretStrat (by decide)

/-- C2: when every attempted strategy fails (the final default-ambient one
included), resolution settles in the Failed state: `initializationError`
stores the aggregate error listing every attempted strategy's name and
error message, `isInitialized` stays false, and nothing escapes the
construction path — the non-test constructor returns normally with the
pending initial fields, and `constructorSettledState`, the settled result
of the `initializeAsync` task it spawns, is a total function (the error is
stored, not rethrown, per `initialize` and `initializeAsync`). -/
theorem allFail_stores_aggregate_error (env : Env) (o : Oracle)
    (henv : env.nodeEnvTest = false)
    (h : ∀ s ∈ attemptedStrategies env, strategySucceeds env o s = false) :
    constructorRun env = { fieldsInitialized := true, st := initialState } ∧
    (constructorSettledState env o).initializationError =
      some (.allFailed ((attemptedStrategies env).map (attemptEntry env o))) ∧
    (constructorSettledState env o).isInitialized = false := by
  have hb := setup_eq_chain env o (initialState.credential)
  rw [chainSpec_all_fail env o _ _ h] at hb
  have h1 := congrArg Prod.fst hb
  simp only at h1
  simp at h1
  refine ⟨by simp [constructorRun, henv], ?_, ?_⟩
  · simp [constructorSettledState, initializeAsyncRun, initializeRun, h1]
  · simp [constructorSettledState, initializeAsyncRun, initializeRun, h1]

/-- Witness for C2: under `envW`/`oracleAllFail` the managed-identity,
client-secret and default strategies are all attempted and fail, and the
settled state stores the three-entry aggregate error. -/
theorem allFail_stores_aggregate_error_witness :
    constructorRun envW = { fieldsInitialized := true, st := initialState } ∧
    (constructorSettledState envW oracleAllFail).initializationError =
      some (.allFailed ((attemptedStrategies envW).map (attemptEntry envW oracleAllFail))) ∧
    (constructorSettledState envW oracleAllFail).isInitialized = false :=
  allFail_stores_aggregate_error envW oracleAllFail rfl (by decide)

/-- A concrete configuration where only the certificate strategy (besides
the always-present default) has its prerequisites. -/
def envCert : Env :=
  { azureClientId := none
    msiEndpoint := none
    keyVaultUri := some "https://vault.example.net"
    certificateName := some "botcert"
    tenantId := some "tenant-1"
    clientId := some "app-1"
    clientSecret := none
    certificatePassword := none
    nodeEnvTest := false }

/-- A concrete oracle where the certificate fetch succeeds but all three
constructor forms throw, with distinct messages. -/
def oracleCertFail : Oracle :=
  { getToken := fun _ _ => .error "token request failed"
    fetchCertificateSecret := .ok "QkFTRTY0"
    clientCertificateCtor := fun _ _ d =>
      match d with
      | .base64String _ => .error "string form rejected"
      | .buffer _ => .error "buffer form rejected"
      | .filePath _ => .error "file form rejected"
    tempName := "cert-171-abc.pfx"
    unlinkOk := fun _ => true
    vaultGetSecret := fun _ => .error "vault unreachable"
    vaultSetSecret := fun _ _ => .error "vault unreachable"
    vaultGetCertificate := fun _ => .error "vault unreachable" }

/-- C3: the certificate sub-procedure hands the constructor exactly the
base64 string, then the decoded buffer, then the temp-file path, in that
order; a throwing sub-attempt is caught and the next form tried; the first
constructor call that returns ends the sub-procedure with that form's
credential; if all three throw, the sub-procedure throws the single
aggregate of the three sub-errors, and in the outer chain that aggregate
becomes the one recorded `ClientCertificate` attempt, after which the
chain continues with the remaining strategies (by `setup_eq_chain`,
`setupCredentials` computes `chainSpec` on the attempted-strategy list, so
the tail after the certificate strategy is strategies 3 and 4). -/
theorem certificate_subprocedure_spec (env : Env) (o : Oracle) (t c : String)
    (info : CertificateInfo) (fs : List String) :
    (exceptOk (o.clientCertificateCtor t c (.base64String info.certificate)) = true →
      (tryCreateCertificateCredential o t c info fs).1 =
        .ok (.clientCertificate .base64String)) ∧
    (∀ e1, o.clientCertificateCtor t c (.base64String info.certificate) = .error e1 →
      exceptOk (o.clientCertificateCtor t c (.buffer info.certificate)) = true →
      (tryCreateCertificateCredential o t c info fs).1 = .ok (.clientCertificate .buffer)) ∧
    (∀ e1 e2, o.clientCertificateCtor t c (.base64String info.certificate) = .error e1 →
      o.clientCertificateCtor t c (.buffer info.certificate) = .error e2 →
      exceptOk (o.clientCertificateCtor t c (.filePath o.tempName)) = true →
      (tryCreateCertificateCredential o t c info fs).1 =
        .ok (.clientCertificate .tempFile)) ∧
    (∀ e1 e2 e3, o.clientCertificateCtor t c (.base64String info.certificate) = .error e1 →
      o.clientCertificateCtor t c (.buffer info.certificate) = .error e2 →
      o.clientCertificateCtor t c (.filePath o.tempName) = .error e3 →
      (tryCreateCertificateCredential o t c info fs).1 =
        .error (.allCertApproachesFailed
          [⟨"base64String", e1⟩, ⟨"buffer", e2⟩, ⟨"tempFile", e3⟩])) ∧
    (∀ infoE e1 e2 e3,
      getCertificateFromKeyVault o env = .ok infoE →
      o.clientCertificateCtor (env.tenantId.getD "") (env.clientId.getD "")
          (.base64String infoE.certificate) = .error e1 →
      o.clientCertificateCtor (env.tenantId.getD "") (env.clientId.getD "")
          (.buffer infoE.certificate) = .error e2 →
      o.clientCertificateCtor (env.tenantId.getD "") (env.clientId.getD "")
          (.filePath o.tempName) = .error e3 →
      ∀ rest attempts, chainSpec env o (.clientCertificate :: rest) attempts =
        chainSpec env o rest (attempts ++
          [⟨"ClientCertificate",
            (Err.allCertApproachesFailed
              [⟨"base64String", e1⟩, ⟨"buffer", e2⟩, ⟨"tempFile", e3⟩]).message⟩])) := by
  refine ⟨?_, ?_, ?_, ?_, ?_⟩
  · intro h1
    cases hc1 : o.clientCertificateCtor t c (.base64String info.certificate) with
    | ok _ => simp [tryCreateCertificateCredential, hc1]
    | error e => simp [exceptOk, hc1] at h1
  · intro e1 hc1 h2
    cases hc2 : o.clientCertificateCtor t c (.buffer info.certificate) with
    | ok _ => simp [tryCreateCertificateCredential, hc1, hc2]
    | error e => simp [exceptOk, hc2] at h2
  · intro e1 e2 hc1 hc2 h3
    cases hc3 : o.clientCertificateCtor t c (.filePath o.tempName) with
    | ok _ => simp [tryCreateCertificateCredential, hc1, hc2, hc3]
    | error e => simp [exceptOk, hc3] at h3
  · intro e1 e2 e3 hc1 hc2 hc3
    simp [tryCreateCertificateCredential, hc1, hc2, hc3]
  · intro infoE e1 e2 e3 hfetch hc1 hc2 hc3 rest attempts
    have houtcome : strategyOutcome env o .clientCertificate =
        .error (.allCertApproachesFailed
          [⟨"base64String", e1⟩, ⟨"buffer", e2⟩, ⟨"tempFile", e3⟩]) := by
      simp [strategyOutcome, hfetch, tryCreateCertificateCredential, hc1, hc2, hc3]
    simp [chainSpec, houtcome, strategyName]

/-- Witness for C3 (fourth and fifth conjuncts at a concrete input where
all three constructor forms throw): the sub-procedure aggregates the three
sub-errors and the chain records them as one `ClientCertificate` attempt
and proceeds. -/
theorem certificate_subprocedure_spec_witness :
    (tryCreateCertificateCredential oracleCertFail "tenant-1" "app-1"
        ⟨"QkFTRTY0", "", "pkcs12"⟩ []).1 =
      .error (.allCertApproachesFailed
        [⟨"base64String", "string form rejected"⟩, ⟨"buffer", "buffer form rejected"⟩,
          ⟨"tempFile", "file form rejected"⟩]) ∧
    chainSpec envCert oracleCertFail [.clientCertificate, .defaultAzure] [] =
      chainSpec envCert oracleCertFail [.defaultAzure]
        [⟨"ClientCertificate",
          (Err.allCertApproachesFailed
            [⟨"base64String", "string form rejected"⟩, ⟨"buffer", "buffer form rejected"⟩,
              ⟨"tempFile", "file form rejected"⟩]).message⟩] :=
  ⟨(certificate_subprocedure_spec envCert oracleCertFail "tenant-1" "app-1"
      ⟨"QkFTRTY0", "", "pkcs12"⟩ []).2.2.2.1 "string form rejected" "buffer form rejected"
      "file form rejected" rfl rfl rfl,
    by
      have h := (certificate_subprocedure_spec envCert oracleCertFail "tenant-1" "app-1"
        ⟨"QkFTRTY0", "", "pkcs12"⟩ []).2.2.2.2 ⟨"QkFTRTY0", "", "pkcs12"⟩
        "string form rejected" "buffer form rejected" "file form rejected" rfl rfl rfl rfl
        [.defaultAzure] []
      simpa using h⟩

/-- Like `oracleCertFail`, but every `fs.unlinkSync` call throws (for
example the file is locked or permissions changed); the source swallows
that error at both cleanup sites. -/
def oracleUnlinkFail : Oracle :=
  { getToken := fun _ _ => .error "token request failed"
    fetchCertificateSecret := .ok "QkFTRTY0"
    clientCertificateCtor := fun _ _ d =>
      match d with
      | .base64String _ => .error "string form rejected"
      | .buffer _ => .error "buffer form rejected"
      | .filePath _ => .error "file form rejected"
    tempName := "cert-171-abc.pfx"
    unlinkOk := fun _ => false
    vaultGetSecret := fun _ => .error "vault unreachable"
    vaultSetSecret := fun _ _ => .error "vault unreachable"
    vaultGetCertificate := fun _ => .error "vault unreachable" }

/-- C4 counterexample: a concrete run that reaches the temp-file approach,
writes the file, invokes `unlinkSync` on it (third component), and — the
unlink throwing, swallowed at source lines 263-272 — completes with the
temporary certificate file still on disk, contrary to the claim that no
temporary file remains after any certificate sub-approach completes. -/
theorem tempFile_cleanup_cex :
    (tryCreateCertificateCredential oracleUnlinkFail "tenant-1" "app-1"
        ⟨"QkFTRTY0", "", "pkcs12"⟩ []).2.2 = ["cert-171-abc.pfx"] ∧
    (tryCreateCertificateCredential oracleUnlinkFail "tenant-1" "app-1"
        ⟨"QkFTRTY0", "", "pkcs12"⟩ []).2.1 = ["cert-171-abc.pfx"] ∧
    oracleUnlinkFail.tempName ∈
      (tryCreateCertificateCredential oracleUnlinkFail "tenant-1" "app-1"
        ⟨"QkFTRTY0", "", "pkcs12"⟩ []).2.1 := by
  refine ⟨rfl, rfl, by decide⟩

/-- C4 amended: whenever the temp-file sub-approach runs (both earlier
constructor forms threw), `fs.unlinkSync` is invoked on the temp path
exactly once before the sub-procedure returns or throws — on the success
path unconditionally, on the constructor-throws path guarded by the
(true) `existsSync` check — and if that unlink call succeeds the
filesystem is exactly restored, so no temporary file remains; but a
throwing `unlinkSync` is swallowed, and then the temp file — and nothing
else — remains on disk. Sub-approaches (a) and (b), when one of them ends
the procedure, write no file and call no unlink. -/
theorem tempFile_cleanup_amended (o : Oracle) (t c : String) (info : CertificateInfo)
    (fs : List String) (hfresh : o.tempName ∉ fs) :
    (∀ e1 e2, o.clientCertificateCtor t c (.base64String info.certificate) = .error e1 →
      o.clientCertificateCtor t c (.buffer info.certificate) = .error e2 →
      (tryCreateCertificateCredential o t c info fs).2.2 = [o.tempName]) ∧
    ((exceptOk (o.clientCertificateCtor t c (.base64String info.certificate)) = true ∨
        exceptOk (o.clientCertificateCtor t c (.buffer info.certificate)) = true) →
      (tryCreateCertificateCredential o t c info fs).2.1 = fs ∧
      (tryCreateCertificateCredential o t c info fs).2.2 = []) ∧
    (o.unlinkOk o.tempName = true →
      (tryCreateCertificateCredential o t c info fs).2.1 = fs ∧
      o.tempName ∉ (tryCreateCertificateCredential o t c info fs).2.1) ∧
    ((tryCreateCertificateCredential o t c info fs).2.1 = fs ∨
      (tryCreateCertificateCredential o t c info fs).2.1 = fs ++ [o.tempName]) ∧
    ((tryCreateCertificateCredential o t c info fs).2.1 ≠ fs →
      o.unlinkOk o.tempName = false) := by
  have herase : (fs ++ [o.tempName]).erase o.tempName = fs := by
    rw [List.erase_append_right _ hfresh]
    simp
  have hmem : o.tempName ∈ fs ++ [o.tempName] := by simp
  refine ⟨?_, ?_, ?_, ?_, ?_⟩
  · intro e1 e2 hc1 hc2
    cases hc3 : o.clientCertificateCtor t c (.filePath o.tempName) with
    | ok _ => simp [tryCreateCertificateCredential, hc1, hc2, hc3]
    | error e3 => simp [tryCreateCertificateCredential, hc1, hc2, hc3, hmem]
  · intro h12
    cases hc1 : o.clientCertificateCtor t c (.base64String info.certificate) with
    | ok _ => simp [tryCreateCertificateCredential, hc1]
    | error e1 =>
      cases hc2 : o.clientCertificateCtor t c (.buffer info.certificate) with
      | ok _ => simp [tryCreateCertificateCredential, hc1, hc2]
      | error e2 => simp [exceptOk, hc1, hc2] at h12
  · intro hu
    have key : (tryCreateCertificateCredential o t c info fs).2.1 = fs := by
      cases hc1 : o.clientCertificateCtor t c (.base64String info.certificate) with
      | ok _ => simp [tryCreateCertificateCredential, hc1]
      | error e1 =>
        cases hc2 : o.clientCertificateCtor t c (.buffer info.certificate) with
        | ok _ => simp [tryCreateCertificateCredential, hc1, hc2]
        | error e2 =>
          cases hc3 : o.clientCertificateCtor t c (.filePath o.tempName) with
          | ok _ => simpa [tryCreateCertificateCredential, hc1, hc2, hc3, hu] using herase
          | error e3 =>
            simpa [tryCreateCertificateCredential, hc1, hc2, hc3, hu, hmem] using herase
    exact ⟨key, by rw [key]; exact hfresh⟩
  · cases hc1 : o.clientCertificateCtor t c (.base64String info.certificate) with
    | ok _ => exact Or.inl (by simp [tryCreateCertificateCredential, hc1])
    | error e1 =>
      cases hc2 : o.clientCertificateCtor t c (.buffer info.certificate) with
      | ok _ => exact Or.inl (by simp [tryCreateCertificateCredential, hc1, hc2])
      | error e2 =>
        cases hu : o.unlinkOk o.tempName with
        | true =>
          refine Or.inl ?_
          cases hc3 : o.clientCertificateCtor t c (.filePath o.tempName) with
          | ok _ => simpa [tryCreateCertificateCredential, hc1, hc2, hc3, hu] using herase
          | error e3 =>
            simpa [tryCreateCertificateCredential, hc1, hc2, hc3, hu, hmem] using herase
        | false =>
          refine Or.inr ?_
          cases hc3 : o.clientCertificateCtor t c (.filePath o.tempName) with
          | ok _ => simp [tryCreateCertificateCredential, hc1, hc2, hc3, hu]
          | error e3 => simp [tryCreateCertificateCredential, hc1, hc2, hc3, hu, hmem]
  · intro hne
    cases hu : o.unlinkOk o.tempName with
    | false => rfl
    | true =>
      exfalso
      apply hne
      cases hc1 : o.clientCertificateCtor t c (.base64String info.certificate) with
      | ok _ => simp [tryCreateCertificateCredential, hc1]
      | error e1 =>
        cases hc2 : o.clientCertificateCtor t c (.buffer info.certificate) with
        | ok _ => simp [tryCreateCertificateCredential, hc1, hc2]
        | error e2 =>
          cases hc3 : o.clientCertificateCtor t c (.filePath o.tempName) with
          | ok _ => simpa [tryCreateCertificateCredential, hc1, hc2, hc3, hu] using herase
          | error e3 =>
            simpa [tryCreateCertificateCredential, hc1, hc2, hc3, hu, hmem] using herase

/-- Witness for the amended C4: in the concrete all-constructors-throw run
whose unlink succeeds, the unlink call is made and the filesystem ends
empty — no temp file remains. -/
theorem tempFile_cleanup_amended_witness :
    (tryCreateCertificateCredential oracleCertFail "tenant-1" "app-1"
        ⟨"QkFTRTY0", "", "pkcs12"⟩ []).2.1 = [] ∧
    oracleCertFail.tempName ∉
      (tryCreateCertificateCredential oracleCertFail "tenant-1" "app-1"
        ⟨"QkFTRTY0", "", "pkcs12"⟩ []).2.1 :=
  (tempFile_cleanup_amended oracleCertFail "tenant-1" "app-1" ⟨"QkFTRTY0", "", "pkcs12"⟩ []
    (by decide)).2.2.1 rfl

theorem waitLoop_all_pending (polls : Nat → FactoryState) (fuel : Nat) : ∀ i : Nat,
    (∀ j, j ≤ fuel → (polls (i + j)).isInitialized = false ∧
      (polls (i + j)).initializationError = none) →
    waitLoop polls fuel i = polls (i + fuel) := by
  induction fuel with
  | zero => intro i h; simp [waitLoop]
  | succ n ih =>
    intro i h
    have h0 := h 0 (by omega)
    simp only [Nat.add_zero] at h0
    have hstep : waitLoop polls (n + 1) i = waitLoop polls n (i + 1) := by
      simp [waitLoop, h0.1, h0.2]
    rw [hstep, ih (i + 1) ?_]
    · exact congrArg polls (by omega)
    · intro j hj
      have hh := h (j + 1) (by omega)
      have harith : i + (j + 1) = i + 1 + j := by omega
      rw [harith] at hh
      exact hh

theorem waitLoop_stops (polls : Nat → FactoryState) : ∀ (fuel i k : Nat), i ≤ k →
    k ≤ i + fuel →
    (∀ j, i ≤ j → j < k → (polls j).isInitialized = false ∧
      (polls j).initializationError = none) →
    ((polls k).isInitialized || (polls k).initializationError.isSome) = true →
    waitLoop polls fuel i = polls k := by
  intro fuel
  induction fuel with
  | zero =>
    intro i k hik hki _ _
    have : i = k := by omega
    subst this
    simp [waitLoop]
  | succ n ih =>
    intro i k hik hki hpend hterm
    by_cases hik2 : i = k
    · subst hik2
      simp only [waitLoop]
      rw [if_pos (by simpa using hterm)]
    · have hlt : i < k := by omega
      have hp := hpend i (le_refl i) hlt
      simp only [waitLoop, hp.1, hp.2]
      simp only [Option.isSome_none, Bool.or_self, Bool.false_eq_true, if_false]
      exact ih (i + 1) k (by omega) (by omega) (fun j hj hjk => hpend j (by omega) hjk) hterm

/-- A concrete Failed terminal state. -/
def stFailedW : FactoryState :=
  { initialState with initializationError := some (.external "boom") }

/-- C5: the readiness gate. If at the first poll the state is already
Succeeded, `waitForInitialization` returns at once with `true`; if it has
already Failed, it raises exactly the stored terminal error at once and
runs no resolution (the function consults only the polled state — it has
no `Env` or `Oracle` argument to re-attempt with); while still Pending it
keeps polling (one fixed 100 ms sleep per `waitLoop` step) and, at the
first poll that finds a terminal state within the deadline, behaves as
above; if the whole deadline passes while Pending, it raises the distinct
`initTimeout` error, which differs from every credential-failure
aggregate. -/
theorem readiness_gate_spec (polls : Nat → FactoryState) (fuel : Nat) :
    ((polls 0).isInitialized = true → (polls 0).initializationError = none →
      waitForInitialization polls fuel = .ok true) ∧
    (∀ e, (polls 0).initializationError = some e →
      waitForInitialization polls fuel = .error e) ∧
    ((∀ i, i ≤ fuel → (polls i).isInitialized = false ∧
        (polls i).initializationError = none) →
      waitForInitialization polls fuel = .error .initTimeout) ∧
    (∀ k, k ≤ fuel →
      (∀ i, i < k → (polls i).isInitialized = false ∧
        (polls i).initializationError = none) →
      ((∀ e, (polls k).initializationError = some e →
          waitForInitialization polls fuel = .error e) ∧
        ((polls k).isInitialized = true → (polls k).initializationError = none →
          waitForInitialization polls fuel = .ok true))) ∧
    (∀ attempts, (Err.initTimeout : Err) ≠ .allFailed attempts) := by
  have hmain : ∀ k, k ≤ fuel →
      (∀ i, i < k → (polls i).isInitialized = false ∧
        (polls i).initializationError = none) →
      ((∀ e, (polls k).initializationError = some e →
          waitForInitialization polls fuel = .error e) ∧
        ((polls k).isInitialized = true → (polls k).initializationError = none →
          waitForInitialization polls fuel = .ok true)) := by
    intro k hk hpend
    constructor
    · intro e he
      have hstop := waitLoop_stops polls fuel 0 k (by omega) (by omega)
        (fun j _ hjk => hpend j hjk) (by simp [he])
      simp [waitForInitialization, hstop, he]
    · intro hinit herr
      have hstop := waitLoop_stops polls fuel 0 k (by omega) (by omega)
        (fun j _ hjk => hpend j hjk) (by simp [hinit])
      simp [waitForInitialization, hstop, herr, hinit]
  refine ⟨?_, ?_, ?_, hmain, ?_⟩
  · intro hinit herr
    exact (hmain 0 (by omega) (by omega)).2 hinit herr
  · intro e he
    exact (hmain 0 (by omega) (by omega)).1 e he
  · intro hpend
    have hstop := waitLoop_all_pending polls fuel 0
      (fun j hj => by simpa using hpend j hj)
    simp only [Nat.zero_add] at hstop
    have hp := hpend fuel (le_refl fuel)
    simp [waitForInitialization, hstop, hp.1, hp.2]
  · intro attempts
    simp

/-- Witness for C5: with every poll seeing the concrete Failed state, the
gate raises the stored error immediately. -/
theorem readiness_gate_spec_witness :
    waitForInitialization (fun _ => stFailedW) 3 = .error (.external "boom") :=
  (readiness_gate_spec (fun _ => stFailedW) 3).2.1 (.external "boom") rfl

deriving instance DecidableEq for Except

/-- The claim's version of `setSecret`, following the spec's words ("each
accessor calls ensureReady() first, then checks that the specific
sub-client it needs is non-null"); defined only to compare against the
embedded `setSecretRun`. -/
def setSecretClaimed (o : Oracle) (testMode : Bool) (st : FactoryState) (fuel : Nat)
    (secretName secretValue : String) : Except Err Unit :=
  match ensureCredentialAvailable testMode st fuel with
  | .error e => .error e
  | .ok _ =>
    if !st.secretClient then .error .secretClientNotInitialized
    else
      match o.vaultSetSecret secretName secretValue with
      | .error m => .error (.external m)
      | .ok _ => .ok ()

/-- C6 counterexample: on the pending post-constructor state the claimed
gate-first `setSecret` times out in the readiness gate, but the embedded
`setSecret` never calls the gate and answers immediately with the missing
secret client; `getCertificate` and the synchronous `getGraphClient`
likewise answer immediately while resolution is still pending. -/
theorem accessors_gate_cex :
    setSecretRun oracleW initialState "n" "v" = .error .secretClientNotInitialized ∧
    setSecretClaimed oracleW false initialState 0 "n" "v" = .error .initTimeout ∧
    setSecretRun oracleW initialState "n" "v" ≠
      setSecretClaimed oracleW false initialState 0 "n" "v" ∧
    getCertificateRun oracleW initialState "c" = .error .certificateClientNotInitialized ∧
    getGraphClientRun initialState = .error .graphClientNotInitialized := by
  refine ⟨rfl, rfl, ?_, rfl, rfl⟩
  decide

/-- C6 amended: `getSecret` and `getAccessToken` pass through the readiness
gate first (a gate failure is returned unchanged before any sub-client or
credential use); `setSecret`, `getCertificate` and `getGraphClient` never
call the gate — their result depends only on their own sub-client flag and
arguments, not on `isInitialized`, `initializationError` or the
credential — and each raises its own distinct sub-client-not-configured
error when that sub-client was never built. -/
theorem accessors_gate_amended (o : Oracle) (st st2 : FactoryState) (fuel : Nat)
    (f : Factory) (n v : String) (scopes : List String) :
    (∀ e, ensureCredentialAvailable false st fuel = .error e →
      getSecretRun o false st fuel n = .error e) ∧
    (∀ e, ensureCredentialAvailable false f.st fuel = .error e →
      getAccessTokenRun o false f fuel scopes = .error e) ∧
    (st2.secretClient = st.secretClient →
      setSecretRun o st2 n v = setSecretRun o st n v) ∧
    (st2.certificateClient = st.certificateClient →
      getCertificateRun o st2 n = getCertificateRun o st n) ∧
    (st2.graphClient = st.graphClient →
      getGraphClientRun st2 = getGraphClientRun st) ∧
    (st.secretClient = false →
      setSecretRun o st n v = .error .secretClientNotInitialized) ∧
    (st.certificateClient = false →
      getCertificateRun o st n = .error .certificateClientNotInitialized) ∧
    (st.graphClient = false →
      getGraphClientRun st = .error .graphClientNotInitialized) ∧
    ((Err.secretClientNotInitialized ≠ Err.certificateClientNotInitialized) ∧
      (Err.secretClientNotInitialized ≠ Err.graphClientNotInitialized) ∧
      (Err.certificateClientNotInitialized ≠ Err.graphClientNotInitialized)) := by
  refine ⟨?_, ?_, ?_, ?_, ?_, ?_, ?_, ?_, by decide⟩
  · intro e he
    simp [getSecretRun, he]
  · intro e he
    simp [getAccessTokenRun, he]
  · intro h
    simp [setSecretRun, h]
  · intro h
    simp [getCertificateRun, h]
  · intro h
    simp [getGraphClientRun, h]
  · intro h
    simp [setSecretRun, h]
  · intro h
    simp [getCertificateRun, h]
  · intro h
    simp [getGraphClientRun, h]

/-- Witness for the amended C6: on the concrete Failed state with no
secret client, `setSecret` reports the distinct sub-client error. -/
theorem accessors_gate_amended_witness :
    setSecretRun oracleW stFailedW "n" "v" = .error .secretClientNotInitialized :=
  (accessors_gate_amended oracleW stFailedW initialState 0 ⟨true, initialState⟩
    "n" "v" []).2.2.2.2.2.1 rfl

/-- A configuration with only the managed-identity hint set. -/
def env7 : Env :=
  { azureClientId := some "mi-client"
    msiEndpoint := none
    keyVaultUri := none
    certificateName := none
    tenantId := none
    clientId := none
    clientSecret := none
    certificatePassword := none
    nodeEnvTest := false }

/-- An oracle under which managed identity fails its liveness test and the
default credential passes. -/
def oracle7 : Oracle :=
  { getToken := fun c _ =>
      match c with
      | .defaultAzure => .ok (some "token-da")
      | _ => .error "managed identity unavailable"
    fetchCertificateSecret := .error "no vault"
    clientCertificateCtor := fun _ _ _ => .error "no cert"
    tempName := "cert-tmp.pfx"
    unlinkOk := fun _ => true
    vaultGetSecret := fun _ => .error "no vault"
    vaultSetSecret := fun _ _ => .error "no vault"
    vaultGetCertificate := fun _ => .error "no vault" }

/-- The factory state at the first suspend point of the `env7`/`oracle7`
resolution pass: the managed-identity candidate has been assigned to
`this.credential` and its liveness test is awaiting, while resolution is
still pending (`isInitialized` false, no stored error). -/
def midResolutionState : FactoryState :=
  { initialState with credential := some .managedIdentity }

/-- C7 counterexample: mid-resolution (`midResolutionState` is the
credential-field snapshot at the first suspend point of this run, whose
resolution is still pending) `getHealthStatus` reports the credential as
"initialized", not "not initialized" — the claim's pending clause fails at
this lifecycle point. -/
theorem health_pending_cex :
    (setupCredentialsRun env7 oracle7 none).trace.head? =
      some (some Cred.managedIdentity) ∧
    (setupCredentialsRun env7 oracle7 none).result = .ok Cred.defaultAzure ∧
    midResolutionState.isInitialized = false ∧
    midResolutionState.initializationError = none ∧
    (getHealthStatus env7 midResolutionState).credential = "initialized" ∧
    "initialized" ≠ "not initialized" := by
  refine ⟨rfl, rfl, rfl, rfl, rfl, by decide⟩

/-- C7 amended: `getHealthStatus` is a total synchronous snapshot — a plain
function of the instantaneous fields with no gate, wait or oracle — and
its credential field reads "not initialized" exactly when the credential
field is null: true in the pending post-constructor state, but at a
mid-resolution suspend point where a candidate is under test it reads
"initialized" even though resolution is still pending. -/
theorem health_snapshot_amended (env : Env) (st : FactoryState) :
    ((getHealthStatus env st).credential = "not initialized" ↔ st.credential = none) ∧
    getHealthStatus env initialState =
      ⟨"not initialized", "not initialized", "not initialized", "not initialized",
        if envTruthy env.keyVaultUri then "configured" else "not configured"⟩ := by
  constructor
  · constructor
    · intro h1
      cases h : st.credential with
      | none => rfl
      | some c =>
        rw [getHealthStatus] at h1
        simp [h] at h1
    · intro h1
      simp [getHealthStatus, h1]
  · simp [getHealthStatus, initialState]

/-- Witness for the amended C7: the pending post-constructor state under
`env7` reports everything not initialized and the vault not configured. -/
theorem health_snapshot_amended_witness :
    getHealthStatus env7 initialState =
      ⟨"not initialized", "not initialized", "not initialized", "not initialized",
        "not configured"⟩ := by
  simpa using (health_snapshot_amended env7 initialState).2

theorem setupAttempt4_core (o : Oracle) (attempts : List Attempt)
    (tr1 tr2 : List (Option Cred)) :
    (setupAttempt4 o attempts tr1).result = (setupAttempt4 o attempts tr2).result ∧
    (setupAttempt4 o attempts tr1).attempts = (setupAttempt4 o attempts tr2).attempts ∧
    (setupAttempt4 o attempts tr1).finalCredential =
      (setupAttempt4 o attempts tr2).finalCredential := by
  cases h : testCredential o (some .defaultAzure) <;> simp [setupAttempt4, h]

theorem setupAttempt3_core (env : Env) (o : Oracle) (attempts : List Attempt)
    (tr1 tr2 : List (Option Cred)) :
    (setupAttempt3 env o attempts tr1).result = (setupAttempt3 env o attempts tr2).result ∧
    (setupAttempt3 env o attempts tr1).attempts =
      (setupAttempt3 env o attempts tr2).attempts ∧
    (setupAttempt3 env o attempts tr1).finalCredential =
      (setupAttempt3 env o attempts tr2).finalCredential := by
  by_cases h3 : (envTruthy env.tenantId && envTruthy env.clientId
      && envTruthy env.clientSecret) = true
  · cases h : testCredential o (some .clientSecretCred) with
    | ok v => simp [setupAttempt3, h3, h]
    | error e =>
      simp only [setupAttempt3, h3, if_true, h]
      exact setupAttempt4_core o _ _ _
  · simp only [setupAttempt3, h3]
    rw [if_neg (by simp [h3]), if_neg (by simp [h3])]
    exact setupAttempt4_core o _ _ _

theorem setupAttempt2_core (env : Env) (o : Oracle) (cur1 cur2 : Option Cred)
    (attempts : List Attempt) (tr1 tr2 : List (Option Cred)) :
    (setupAttempt2 env o cur1 attempts tr1).result =
      (setupAttempt2 env o cur2 attempts tr2).result ∧
    (setupAttempt2 env o cur1 attempts tr1).attempts =
      (setupAttempt2 env o cur2 attempts tr2).attempts ∧
    (setupAttempt2 env o cur1 attempts tr1).finalCredential =
      (setupAttempt2 env o cur2 attempts tr2).finalCredential := by
  by_cases h2 : (envTruthy env.keyVaultUri && envTruthy env.certificateName &&
      envTruthy env.tenantId && envTruthy env.clientId) = true
  · simp only [setupAttempt2, h2, if_true]
    cases hf : getCertificateFromKeyVault o env with
    | error e => exact setupAttempt3_core env o _ _ _
    | ok certificateInfo =>
      cases hc : (tryCreateCertificateCredential o (env.tenantId.getD "") (env.clientId.getD "")
          certificateInfo []).1 with
      | error e =>
        simp only [hc]
        exact setupAttempt3_core env o _ _ _
      | ok c =>
        cases ht : testCredential o (some c) with
        | ok v => simp [hc, ht]
        | error e =>
          simp only [hc, ht]
          exact setupAttempt3_core env o _ _ _
  · simp only [setupAttempt2, h2]
    rw [if_neg (by simp [h2]), if_neg (by simp [h2])]
    exact setupAttempt3_core env o _ _ _

theorem setup_core_indep (env : Env) (o : Oracle) (i1 i2 : Option Cred) :
    (setupCredentialsRun env o i1).result = (setupCredentialsRun env o i2).result ∧
    (setupCredentialsRun env o i1).attempts = (setupCredentialsRun env o i2).attempts ∧
    (setupCredentialsRun env o i1).finalCredential =
      (setupCredentialsRun env o i2).finalCredential := by
  by_cases h1 : (envTruthy env.azureClientId || envTruthy env.msiEndpoint) = true
  · simp [setupCredentialsRun, h1]
  · simp only [setupCredentialsRun, h1]
    rw [if_neg (by simp [h1]), if_neg (by simp [h1])]
    exact setupAttempt2_core env o i1 i2 [] [] []

/-- C8 counterexample: start from the settled Failed state of an
`envW`/`oracleAllFail` construction; a later `refreshCredentials` under the
recovered `oracleW` succeeds and installs the client-secret credential, yet
`initializationError` is not reset, so the readiness gate — hence every
gated accessor — still fails after the successful refresh. -/
theorem refresh_no_reset_cex :
    (refreshCredentialsRun envW oracleW (constructorSettledState envW oracleAllFail)).2 =
      .ok () ∧
    (refreshCredentialsRun envW oracleW
        (constructorSettledState envW oracleAllFail)).1.credential =
      some .clientSecretCred ∧
    (refreshCredentialsRun envW oracleW
        (constructorSettledState envW oracleAllFail)).1.initializationError ≠ none ∧
    exceptOk (ensureCredentialAvailable false
      (refreshCredentialsRun envW oracleW
        (constructorSettledState envW oracleAllFail)).1 5) = false := by
  refine ⟨rfl, rfl, ?_, rfl⟩
  decide

/-- C8 amended: `refreshCredentials` re-runs the whole chain and, when the
chain commits, replaces the live credential and returns void — and it is
idempotent (a second refresh reproduces the first's state and result
exactly). But it resets no terminal resolution state: `initializationError`
and `isInitialized` are left untouched on every path, so a previously
stored failure still makes the readiness gate (and with it every gated
accessor) fail even after a refresh that succeeded. -/
theorem refreshCredentials_amended (env : Env) (o : Oracle) (st : FactoryState) :
    (refreshCredentialsRun env o st).1.initializationError = st.initializationError ∧
    (refreshCredentialsRun env o st).1.isInitialized = st.isInitialized ∧
    (∀ c, (setupCredentialsRun env o st.credential).result = .ok c →
      (refreshCredentialsRun env o st).1.credential = some c ∧
      (refreshCredentialsRun env o st).2 = .ok ()) ∧
    refreshCredentialsRun env o (refreshCredentialsRun env o st).1 =
      refreshCredentialsRun env o st ∧
    (∀ e, st.initializationError = some e → ∀ fuel,
      ensureCredentialAvailable false (refreshCredentialsRun env o st).1 fuel =
        .error (.credentialsNotAvailable e.message)) := by
  have herr : (refreshCredentialsRun env o st).1.initializationError =
      st.initializationError := by
    cases h0 : (setupCredentialsRun env o st.credential).result with
    | ok c =>
      by_cases hkv : envTruthy env.keyVaultUri = true
      · simp [refreshCredentialsRun, h0, setupKeyVaultClients, setupGraphClient, hkv]
      · simp [refreshCredentialsRun, h0, setupKeyVaultClients, setupGraphClient, hkv]
    | error e => simp [refreshCredentialsRun, h0]
  have hinit : (refreshCredentialsRun env o st).1.isInitialized = st.isInitialized := by
    cases h0 : (setupCredentialsRun env o st.credential).result with
    | ok c =>
      by_cases hkv : envTruthy env.keyVaultUri = true
      · simp [refreshCredentialsRun, h0, setupKeyVaultClients, setupGraphClient, hkv]
      · simp [refreshCredentialsRun, h0, setupKeyVaultClients, setupGraphClient, hkv]
    | error e => simp [refreshCredentialsRun, h0]
  refine ⟨herr, hinit, ?_, ?_, ?_⟩
  · intro c hc
    constructor
    · by_cases hkv : envTruthy env.keyVaultUri = true
      · simp [refreshCredentialsRun, hc, setupKeyVaultClients, setupGraphClient, hkv]
      · simp [refreshCredentialsRun, hc, setupKeyVaultClients, setupGraphClient, hkv]
    · by_cases hkv : envTruthy env.keyVaultUri = true
      · simp [refreshCredentialsRun, hc, setupKeyVaultClients, setupGraphClient, hkv]
      · simp [refreshCredentialsRun, hc, setupKeyVaultClients, setupGraphClient, hkv]
  · have hind := setup_core_indep env o
      ((refreshCredentialsRun env o st).1.credential) st.credential
    cases h0 : (setupCredentialsRun env o st.credential).result with
    | ok c =>
      have h1 : (setupCredentialsRun env o
          ((refreshCredentialsRun env o st).1.credential)).result = .ok c := by
        rw [hind.1, h0]
      by_cases hkv : envTruthy env.keyVaultUri = true
      · have hcred : (refreshCredentialsRun env o st).1.credential = some c := by
          simp [refreshCredentialsRun, h0, setupKeyVaultClients, setupGraphClient, hkv]
        rw [hcred] at h1
        simp [refreshCredentialsRun, h0, h1, setupKeyVaultClients, setupGraphClient, hkv]
      · have hcred : (refreshCredentialsRun env o st).1.credential = some c := by
          simp [refreshCredentialsRun, h0, setupKeyVaultClients, setupGraphClient, hkv]
        rw [hcred] at h1
        simp [refreshCredentialsRun, h0, h1, setupKeyVaultClients, setupGraphClient, hkv]
    | error e =>
      have hcred : (refreshCredentialsRun env o st).1.credential =
          (setupCredentialsRun env o st.credential).finalCredential := by
        simp [refreshCredentialsRun, h0]
      have h1 : (setupCredentialsRun env o
          ((refreshCredentialsRun env o st).1.credential)).result = .error e := by
        rw [hind.1, h0]
      have hfin : (setupCredentialsRun env o
          ((refreshCredentialsRun env o st).1.credential)).finalCredential =
          (setupCredentialsRun env o st.credential).finalCredential := hind.2.2
      rw [hcred] at h1 hfin
      simp [refreshCredentialsRun, h0, h1, hfin]
  · intro e he fuel
    simp [ensureCredentialAvailable, herr, he]

/-- Witness for the amended C8: refreshing the concrete Failed state keeps
the stored error, and the gate still rejects with it wrapped. -/
theorem refreshCredentials_amended_witness :
    ensureCredentialAvailable false
      (refreshCredentialsRun envW oracleW stFailedW).1 0 =
      .error (.credentialsNotAvailable "boom") :=
  (refreshCredentials_amended envW oracleW stFailedW).2.2.2.2 (.external "boom") rfl 0

/-- C9 counterexample: a resolution pass under `env7`/`oracle7` starting
from the committed default credential (the very credential this
configuration settles on) re-commits it, yet its first `await` suspend
point exposes the constructed-but-untested managed-identity candidate to
any concurrently scheduled reader of `this.credential` (such as an
in-flight `getAccessToken`) — a value that is neither the pre-refresh nor
the post-refresh committed credential. -/
theorem refresh_atomic_cex :
    (constructorSettledState env7 oracle7).credential = some Cred.defaultAzure ∧
    (setupCredentialsRun env7 oracle7 (some Cred.defaultAzure)).result =
      .ok Cred.defaultAzure ∧
    some Cred.managedIdentity ∈
      (setupCredentialsRun env7 oracle7 (some Cred.defaultAzure)).trace ∧
    some Cred.managedIdentity ≠ (some Cred.defaultAzure : Option Cred) := by
  refine ⟨rfl, rfl, by decide, by decide⟩

/-- The strategy a candidate credential object belongs to. -/
def candidateStrategy : Cred → Strategy
  | .managedIdentity => .managedIdentity
  | .clientCertificate _ => .clientCertificate
  | .clientSecretCred => .clientSecretStrat
  | .defaultAzure => .defaultAzure

theorem tryCreate_ok_shape (o : Oracle) (t c : String) (info : CertificateInfo)
    (fs : List String) (cr : Cred)
    (h : (tryCreateCertificateCredential o t c info fs).1 = .ok cr) :
    ∃ a, cr = Cred.clientCertificate a := by
  unfold tryCreateCertificateCredential at h
  cases hc1 : o.clientCertificateCtor t c (.base64String info.certificate) with
  | ok _ =>
    simp [hc1] at h
    exact ⟨.base64String, h.symm⟩
  | error e1 =>
    cases hc2 : o.clientCertificateCtor t c (.buffer info.certificate) with
    | ok _ =>
      simp [hc1, hc2] at h
      exact ⟨.buffer, h.symm⟩
    | error e2 =>
      cases hc3 : o.clientCertificateCtor t c (.filePath o.tempName) with
      | ok _ =>
        simp [hc1, hc2, hc3] at h
        exact ⟨.tempFile, h.symm⟩
      | error e3 => simp [hc1, hc2, hc3] at h

theorem mem_trace_setupAttempt4 (o : Oracle) (attempts : List Attempt)
    (trace : List (Option Cred)) (x : Option Cred)
    (hx : x ∈ (setupAttempt4 o attempts trace).trace) :
    x ∈ trace ∨ x = some .defaultAzure := by
  cases h : testCredential o (some .defaultAzure) with
  | ok v =>
    simp [setupAttempt4, h] at hx
    tauto
  | error e =>
    simp [setupAttempt4, h] at hx
    tauto

theorem mem_trace_setupAttempt3 (env : Env) (o : Oracle) (attempts : List Attempt)
    (trace : List (Option Cred)) (x : Option Cred)
    (hx : x ∈ (setupAttempt3 env o attempts trace).trace) :
    x ∈ trace ∨
      (prereqPresent env .clientSecretStrat = true ∧ x = some .clientSecretCred) ∨
      x = some .defaultAzure := by
  by_cases h3 : (envTruthy env.tenantId && envTruthy env.clientId
      && envTruthy env.clientSecret) = true
  · have hp : prereqPresent env .clientSecretStrat = true := by
      simp [prereqPresent]
      simpa using h3
    cases h : testCredential o (some .clientSecretCred) with
    | ok v =>
      simp [setupAttempt3, h3, h] at hx
      tauto
    | error e =>
      simp only [setupAttempt3, h3, if_true, h] at hx
      rcases mem_trace_setupAttempt4 o _ _ x hx with hin | hda
      · simp at hin
        tauto
      · tauto
  · simp only [setupAttempt3, h3] at hx
    rw [if_neg (by simp [h3])] at hx
    rcases mem_trace_setupAttempt4 o _ _ x hx with hin | hda <;> tauto

theorem mem_trace_setupAttempt2 (env : Env) (o : Oracle) (current : Option Cred)
    (attempts : List Attempt) (trace : List (Option Cred)) (x : Option Cred)
    (hx : x ∈ (setupAttempt2 env o current attempts trace).trace) :
    x ∈ trace ∨ x = current ∨
      (prereqPresent env .clientCertificate = true ∧
        ∃ a, x = some (.clientCertificate a)) ∨
      (prereqPresent env .clientSecretStrat = true ∧ x = some .clientSecretCred) ∨
      x = some .defaultAzure := by
  by_cases h2 : (envTruthy env.keyVaultUri && envTruthy env.certificateName &&
      envTruthy env.tenantId && envTruthy env.clientId) = true
  · have hp : prereqPresent env .clientCertificate = true := by
      simp [prereqPresent]
      simpa using h2
    simp only [setupAttempt2, h2, if_true] at hx
    cases hf : getCertificateFromKeyVault o env with
    | error e =>
      rw [hf] at hx
      rcases mem_trace_setupAttempt3 env o _ _ x hx with hin | hcs | hda
      · simp at hin
        tauto
      · tauto
      · tauto
    | ok certificateInfo =>
      rw [hf] at hx
      cases hc : (tryCreateCertificateCredential o (env.tenantId.getD "") (env.clientId.getD "")
          certificateInfo []).1 with
      | error e =>
        simp only [hc] at hx
        rcases mem_trace_setupAttempt3 env o _ _ x hx with hin | hcs | hda
        · simp at hin
          tauto
        · tauto
        · tauto
      | ok c =>
        obtain ⟨a, ha⟩ := tryCreate_ok_shape o _ _ certificateInfo [] c hc
        cases ht : testCredential o (some c) with
        | ok v =>
          simp [hc, ht] at hx
          rcases hx with hin | hcur | hcand
          · tauto
          · tauto
          · subst ha
            exact Or.inr (Or.inr (Or.inl ⟨hp, a, by rw [hcand]⟩))
        | error e =>
          simp only [hc, ht] at hx
          rcases mem_trace_setupAttempt3 env o _ _ x hx with hin | hcs | hda
          · simp at hin
            rcases hin with hin | hcur | hcand
            · tauto
            · tauto
            · subst ha
              exact Or.inr (Or.inr (Or.inl ⟨hp, a, by rw [hcand]⟩))
          · tauto
          · tauto
  · simp only [setupAttempt2, h2] at hx
    rw [if_neg (by simp [h2])] at hx
    rcases mem_trace_setupAttempt3 env o _ _ x hx with hin | hcs | hda <;> tauto

/-- C9 amended: at every `await` suspend point of a resolution or refresh
pass, a concurrently scheduled accessor observes a complete value of
`this.credential` — never a torn object — but that value is not limited to
the pre- and post-pass committed credentials: it is either the credential
committed before the pass started, or null (after a failed attempt), or a
whole constructed candidate belonging to a strategy whose prerequisite
configuration is present (possibly still untested at that moment). -/
theorem refresh_observable_values (env : Env) (o : Oracle) (initial : Option Cred)
    (x : Option Cred) (hx : x ∈ (setupCredentialsRun env o initial).trace) :
    x = initial ∨ x = none ∨
      ∃ c, x = some c ∧ prereqPresent env (candidateStrategy c) = true := by
  by_cases h1 : (envTruthy env.azureClientId || envTruthy env.msiEndpoint) = true
  · have hp : prereqPresent env .managedIdentity = true := by
      simp [prereqPresent]
      simpa using h1
    simp only [setupCredentialsRun, h1, if_true] at hx
    cases h : testCredential o (some .managedIdentity) with
    | ok v =>
      simp [h] at hx
      exact Or.inr (Or.inr ⟨.managedIdentity, by rw [hx], hp⟩)
    | error e =>
      simp only [h] at hx
      rcases mem_trace_setupAttempt2 env o none _ _ x hx with hin | hnone | hcert | hcs | hda
      · simp at hin
        exact Or.inr (Or.inr ⟨.managedIdentity, by rw [hin], hp⟩)
      · tauto
      · obtain ⟨hpc, a, ha⟩ := hcert
        exact Or.inr (Or.inr ⟨.clientCertificate a, ha, hpc⟩)
      · exact Or.inr (Or.inr ⟨.clientSecretCred, hcs.2, hcs.1⟩)
      · exact Or.inr (Or.inr ⟨.defaultAzure, hda, rfl⟩)
  · simp only [setupCredentialsRun, h1] at hx
    rw [if_neg (by simp [h1])] at hx
    rcases mem_trace_setupAttempt2 env o initial _ _ x hx with hin | hinit | hcert | hcs | hda
    · simp at hin
    · tauto
    · obtain ⟨hpc, a, ha⟩ := hcert
      exact Or.inr (Or.inr ⟨.clientCertificate a, ha, hpc⟩)
    · exact Or.inr (Or.inr ⟨.clientSecretCred, hcs.2, hcs.1⟩)
    · exact Or.inr (Or.inr ⟨.defaultAzure, hda, rfl⟩)

/-- Witness for the amended C9: the managed-identity snapshot observed in
the `env7`/`oracle7` refresh pass is classified by the theorem. -/
theorem refresh_observable_values_witness :
    some Cred.managedIdentity = (some Cred.defaultAzure : Option Cred) ∨
      some Cred.managedIdentity = (none : Option Cred) ∨
      ∃ c, (some Cred.managedIdentity : Option Cred) = some c ∧
        prereqPresent env7 (candidateStrategy c) = true :=
  refresh_observable_values env7 oracle7 (some Cred.defaultAzure)
    (some Cred.managedIdentity) (by decide)

/-- A configuration with NODE_ENV = test. -/
def envTest : Env :=
  { azureClientId := none
    msiEndpoint := none
    keyVaultUri := none
    certificateName := none
    tenantId := none
    clientId := none
    clientSecret := none
    certificatePassword := none
    nodeEnvTest := true }

/-- C10: constructing the factory with NODE_ENV equal to test returns
before initializing any credential-state field (`fieldsInitialized` is
false: `credential`, `isInitialized`, `initializationError` and the
sub-clients are all left undefined) and never starts resolution — the test
branch of `constructorRun` consumes no oracle and spawns no initialization
task; `ensureCredentialAvailable` in test mode returns at once for every
state and deadline, performing no readiness or credential check; and so
`getAccessToken` passes the gate and dereferences the undefined
credential, failing with the JS TypeError rather than with any
not-ready / not-configured error of the gate. -/
theorem testMode_bypass (env : Env) (o : Oracle) (henv : env.nodeEnvTest = true)
    (st : FactoryState) (fuel : Nat) (scopes : List String) :
    constructorRun env = { fieldsInitialized := false, st := initialState } ∧
    ensureCredentialAvailable true st fuel = .ok () ∧
    getAccessTokenRun o true (constructorRun env) fuel scopes =
      .error (.jsTypeError "getToken") ∧
    (∀ m, (Err.jsTypeError "getToken") ≠ .credentialsNotAvailable m) ∧
    (Err.jsTypeError "getToken") ≠ .initTimeout ∧
    (Err.jsTypeError "getToken") ≠ .noCredentialAfterInit := by
  refine ⟨by simp [constructorRun, henv], rfl, ?_, by intro m; simp, by simp, by simp⟩
  simp [getAccessTokenRun, ensureCredentialAvailable, constructorRun, henv]

/-- Witness for C10 at the concrete test configuration. -/
theorem testMode_bypass_witness :
    constructorRun envTest = { fieldsInitialized := false, st := initialState } ∧
    ensureCredentialAvailable true initialState 0 = .ok () ∧
    getAccessTokenRun oracleW true (constructorRun envTest) 0 [] =
      .error (.jsTypeError "getToken") ∧
    (∀ m, (Err.jsTypeError "getToken") ≠ .credentialsNotAvailable m) ∧
    (Err.jsTypeError "getToken") ≠ .initTimeout ∧
    (Err.jsTypeError "getToken") ≠ .noCredentialAfterInit :=
  testMode_bypass envTest oracleW rfl initialState 0 []
